import Mathlib

/-!
Verification of the PWAgents tool-invocation protocol and argument binder
(`src/agent.py`) against its natural-language specification.

The embedding models JSON-decoded Python values as `JVal`, Python callables
abstractly by their behaviour on the three call shapes the executor uses
(`CallArgs`), and Python exceptions as `PyExn` (distinguishing `TypeError`,
which the invocation ladder catches, from every other exception class).
-/

namespace PWAgents

/-- JSON-decoded Python values as they flow through the agent: `None`, `bool`,
numbers (integers; float literals are not modelled), `str`, `list`, `dict`.
Dicts are association lists in insertion order with unique keys. -/
inductive JVal where
  | null
  | bool (b : Bool)
  | num (n : Int)
  | str (s : String)
  | arr (elems : List JVal)
  | obj (fields : List (String × JVal))
  deriving Repr

/-- First value for a key in an insertion-ordered dict (`d.get(k)` when present). -/
def dlookup : List (String × JVal) → String → Option JVal
  | [], _ => none
  | (k, v) :: rest, key => if k = key then some v else dlookup rest key

/-- Python `d.get(k)`: the value when present, else `None`. -/
def dget (d : List (String × JVal)) (k : String) : JVal :=
  (dlookup d k).getD JVal.null

/-- Python `k in d`. -/
def dmember (d : List (String × JVal)) (k : String) : Bool :=
  (dlookup d k).isSome

/-- Python `d.pop(k)` effect on the dict: remove the entry for `k`. -/
def dremove : List (String × JVal) → String → List (String × JVal)
  | [], _ => []
  | (k, v) :: rest, key => if k = key then rest else (k, v) :: dremove rest key

/-- Python `d[k] = v`: update in place when the key exists, else append. -/
def dinsert : List (String × JVal) → String → JVal → List (String × JVal)
  | [], key, v => [(key, v)]
  | (k, w) :: rest, key, v =>
      if k = key then (k, v) :: rest else (k, w) :: dinsert rest key v

/-- Python `{**a, **b}`: entries of `a` in order with `b`'s values overriding,
then `b`'s new keys appended in `b`'s order. -/
def dmerge (a b : List (String × JVal)) : List (String × JVal) :=
  b.foldl (fun d kv => dinsert d kv.1 kv.2) a

/-- Python `x is None`. -/
def JVal.isNull : JVal → Bool
  | .null => true
  | _ => false

/-- Python truthiness of a `JVal`. -/
def JVal.truthy : JVal → Bool
  | .null => false
  | .bool b => b
  | .num n => n ≠ 0
  | .str s => s ≠ ""
  | .arr xs => !xs.isEmpty
  | .obj kvs => !kvs.isEmpty

/-- Python `isinstance(x, (str, int, float, bool)) or x is None` — the scalar test of
the binder (`_extract_kwargs_for`). -/
def JVal.isScalar : JVal → Bool
  | .null | .bool _ | .num _ | .str _ => true
  | .arr _ | .obj _ => false

mutual

/-- Python `repr` of a `JVal` (string escaping inside reprs is not modelled). -/
def pyRepr : JVal → String
  | .null => "None"
  | .bool true => "True"
  | .bool false => "False"
  | .num n => toString n
  | .str s => "\x27" ++ s ++ "\x27"
  | .arr xs => "[" ++ String.intercalate ", " (pyReprList xs) ++ "]"
  | .obj kvs => "\x7b" ++ String.intercalate ", " (pyReprFields kvs) ++ "\x7d"

def pyReprList : List JVal → List String
  | [] => []
  | x :: xs => pyRepr x :: pyReprList xs

def pyReprFields : List (String × JVal) → List String
  | [] => []
  | (k, v) :: kvs => ("\x27" ++ k ++ "\x27: " ++ pyRepr v) :: pyReprFields kvs

end

/-- Python `str` of a `JVal` (containers render via `repr` of their parts). -/
def pyStr : JVal → String
  | .str s => s
  | v => pyRepr v

/-- Python exceptions, split by what the invocation ladder catches:
`TypeError` versus every other exception class. `msg` is `str(e)`. -/
inductive PyExn where
  | typeError (msg : String)
  | otherError (msg : String)
  deriving Repr

/-- Python `str(e)` — the text interpolated into observation strings. -/
def PyExn.msg : PyExn → String
  | .typeError m => m
  | .otherError m => m

/-- The three call shapes the executor ever uses on a tool callable:
`fn(**d)`, `fn(x)`, and `fn()`. -/
inductive CallArgs where
  | kwargs (kvs : List (String × JVal))
  | pos (v : JVal)
  | zero
  deriving Repr

/-- A Python callable, modelled extensionally by its outcome on each call
shape: a value, or a raised exception. -/
structure PyFn where
  call : CallArgs → Except PyExn JVal

/-! String helpers mirroring the Python string operations the parser uses.
All are implemented over `List Char` so they evaluate in the kernel. -/

/-- Python whitespace for `str.strip()`. -/
def isPySpace (c : Char) : Bool :=
  c = ' ' ∨ c = '\t' ∨ c = '\n' ∨ c = '\r' ∨ c = '\x0b' ∨ c = '\x0c'

/-- Python `s.strip()`. -/
def pyStrip (s : String) : String :=
  String.mk (((s.toList.dropWhile isPySpace).reverse.dropWhile isPySpace).reverse)

/-- Does `pat` occur at the head of `s`? -/
def listStartsWith : List Char → List Char → Bool
  | [], _ => true
  | _ :: _, [] => false
  | p :: ps, c :: cs => p = c && listStartsWith ps cs

/-- Does `pat` occur anywhere in `s`? -/
def listContainsSub (s pat : List Char) : Bool :=
  match s with
  | [] => listStartsWith pat []
  | _ :: rest => listStartsWith pat s || listContainsSub rest pat

/-- Python `pat in s` for strings. -/
def strContains (s pat : String) : Bool :=
  listContainsSub s.toList pat.toList

/-- Split at the first occurrence of `pat`: `some (before, after)`, or `none`
when `pat` does not occur. -/
def listSplitFirst (s pat : List Char) : Option (List Char × List Char) :=
  match s with
  | [] => if listStartsWith pat [] then some ([], []) else none
  | c :: rest =>
      if listStartsWith pat s then some ([], s.drop pat.length)
      else match listSplitFirst rest pat with
        | some (pre, post) => some (c :: pre, post)
        | none => none

/-- Python `s.split(sep, 1)[0]`: the part before the first occurrence of
`sep`, or all of `s` when `sep` is absent. -/
def beforeFirst (s sep : String) : String :=
  match listSplitFirst s.toList sep.toList with
  | some (pre, _) => String.mk pre
  | none => s

/-- Python `s.split(sep, 1)[1]`: the part after the first occurrence of `sep`
(callers guard that `sep` occurs; absent maps to `""`). -/
def afterFirst (s sep : String) : String :=
  match listSplitFirst s.toList sep.toList with
  | some (_, post) => String.mk post
  | none => ""

/-! A JSON decoder modelling `json.loads` on the subset the agent protocol
uses: `null`, booleans, integer numbers, strings with simple escapes,
arrays, objects. Float literals and `\u` escapes are not modelled (they are
rejected). Decode failures carry a message, as `str(e)` does in Python. -/

/-- JSON whitespace skip. -/
def skipWs (cs : List Char) : List Char :=
  cs.dropWhile (fun c => c = ' ' ∨ c = '\t' ∨ c = '\n' ∨ c = '\r')

/-- Parse the body of a JSON string literal (after the opening quote),
returning the decoded characters and the rest after the closing quote. -/
def parseStrChars : List Char → Except String (List Char × List Char)
  | [] => .error "Unterminated string"
  | '"' :: rest => .ok ([], rest)
  | '\\' :: c :: rest =>
      match (match c with
        | '"' => some '"'
        | '\\' => some '\\'
        | '/' => some '/'
        | 'n' => some '\n'
        | 't' => some '\t'
        | 'r' => some '\r'
        | 'b' => some (Char.ofNat 8)
        | 'f' => some (Char.ofNat 12)
        | _ => none) with
      | some d =>
          match parseStrChars rest with
          | .ok (s, r) => .ok (d :: s, r)
          | .error e => .error e
      | none => .error "Invalid escape"
  | ['\\'] => .error "Unterminated string"
  | c :: rest =>
      match parseStrChars rest with
      | .ok (s, r) => .ok (c :: s, r)
      | .error e => .error e

/-- Parse a run of digits into a natural number; fails on an empty run. -/
def parseDigits (cs : List Char) (acc : Nat) (seen : Bool) :
    Except String (Nat × List Char) :=
  match cs with
  | c :: rest =>
      if c.isDigit then parseDigits rest (acc * 10 + (c.toNat - 48)) true
      else if seen then .ok (acc, cs) else .error "Expecting value"
  | [] => if seen then .ok (acc, []) else .error "Expecting value"

mutual

/-- JSON value parser (fuel-driven; `jsonFuel` below always suffices). -/
def parseJVal (fuel : Nat) (cs : List Char) : Except String (JVal × List Char) :=
  match fuel with
  | 0 => .error "Expecting value"
  | fuel + 1 =>
    match skipWs cs with
    | 'n' :: 'u' :: 'l' :: 'l' :: rest => .ok (.null, rest)
    | 't' :: 'r' :: 'u' :: 'e' :: rest => .ok (.bool true, rest)
    | 'f' :: 'a' :: 'l' :: 's' :: 'e' :: rest => .ok (.bool false, rest)
    | '"' :: rest =>
        match parseStrChars rest with
        | .ok (s, r) => .ok (.str (String.mk s), r)
        | .error e => .error e
    | '[' :: rest =>
        (match skipWs rest with
         | ']' :: r => .ok (.arr [], r)
         | body =>
            match parseArrItems fuel body with
            | .ok (xs, r) => .ok (.arr xs, r)
            | .error e => .error e)
    | '\x7b' :: rest =>
        (match skipWs rest with
         | '\x7d' :: r => .ok (.obj [], r)
         | body =>
            match parseObjItems fuel body with
            | .ok (kvs, r) =>
                .ok (.obj (kvs.foldl (fun d kv => dinsert d kv.1 kv.2) []), r)
            | .error e => .error e)
    | '-' :: rest =>
        (match parseDigits rest 0 false with
         | .ok (n, r) =>
            (match r with
             | '.' :: _ => .error "Float literals not modelled"
             | 'e' :: _ => .error "Float literals not modelled"
             | 'E' :: _ => .error "Float literals not modelled"
             | _ => .ok (.num (-(n : Int)), r))
         | .error e => .error e)
    | c :: rest =>
        if c.isDigit then
          match parseDigits (c :: rest) 0 false with
          | .ok (n, r) =>
              (match r with
               | '.' :: _ => .error "Float literals not modelled"
               | 'e' :: _ => .error "Float literals not modelled"
               | 'E' :: _ => .error "Float literals not modelled"
               | _ => .ok (.num (n : Int), r))
          | .error e => .error e
        else .error "Expecting value"
    | [] => .error "Expecting value"

/-- Items of a JSON array (after `[` and leading whitespace, nonempty). -/
def parseArrItems (fuel : Nat) (cs : List Char) :
    Except String (List JVal × List Char) :=
  match fuel with
  | 0 => .error "Expecting value"
  | fuel + 1 =>
    match parseJVal fuel cs with
    | .ok (v, rest) =>
        (match skipWs rest with
         | ',' :: r =>
            (match parseArrItems fuel r with
             | .ok (xs, r2) => .ok (v :: xs, r2)
             | .error e => .error e)
         | ']' :: r => .ok ([v], r)
         | _ => .error "Expecting delimiter")
    | .error e => .error e

/-- Members of a JSON object (after the opening brace and leading whitespace,
nonempty). -/
def parseObjItems (fuel : Nat) (cs : List Char) :
    Except String (List (String × JVal) × List Char) :=
  match fuel with
  | 0 => .error "Expecting value"
  | fuel + 1 =>
    match skipWs cs with
    | '"' :: rest =>
        (match parseStrChars rest with
         | .ok (k, r) =>
            (match skipWs r with
             | ':' :: r2 =>
                (match parseJVal fuel r2 with
                 | .ok (v, r3) =>
                    (match skipWs r3 with
                     | ',' :: r4 =>
                        (match parseObjItems fuel r4 with
                         | .ok (kvs, r5) => .ok ((String.mk k, v) :: kvs, r5)
                         | .error e => .error e)
                     | '\x7d' :: r4 => .ok ([(String.mk k, v)], r4)
                     | _ => .error "Expecting delimiter")
                 | .error e => .error e)
             | _ => .error "Expecting colon")
         | .error e => .error e)
    | _ => .error "Expecting property name"

end

/-- Model of `json.loads`: decode one JSON value and require only whitespace after it.
Failures are `ValueError`-family exceptions, never `TypeError`. -/
def json_loads (s : String) : Except PyExn JVal :=
  match parseJVal (s.length + 2) (s.toList) with
  | .ok (v, rest) =>
      if (skipWs rest).isEmpty then .ok v else .error (.otherError "Extra data")
  | .error e => .error (.otherError e)

/-- Python type name, as it appears in an `AttributeError` message. -/
def pyTypeName : JVal → String
  | .null => "NoneType"
  | .bool _ => "bool"
  | .num _ => "int"
  | .str _ => "str"
  | .arr _ => "list"
  | .obj _ => "dict"

/-- Modelled subset of `html.unescape`: the five common character entities. -/
def htmlUnescapeL : List Char → List Char
  | '&' :: 'a' :: 'm' :: 'p' :: ';' :: rest => '&' :: htmlUnescapeL rest
  | '&' :: 'l' :: 't' :: ';' :: rest => '<' :: htmlUnescapeL rest
  | '&' :: 'g' :: 't' :: ';' :: rest => '>' :: htmlUnescapeL rest
  | '&' :: 'q' :: 'u' :: 'o' :: 't' :: ';' :: rest => '"' :: htmlUnescapeL rest
  | '&' :: '#' :: '3' :: '9' :: ';' :: rest => '\x27' :: htmlUnescapeL rest
  | c :: rest => c :: htmlUnescapeL rest
  | [] => []

/-- Model of `html.unescape` on strings (modelled subset). -/
def htmlUnescape (s : String) : String :=
  String.mk (htmlUnescapeL s.toList)

/-- One attempt of the permissive-form attribute regex at offset `k` after a
`<tool_call` occurrence: the literal `attr` pattern must match there, followed
by a nonempty run of non-quote characters and a closing quote. -/
def attrCaptureAt (pat seg : List Char) : Option String :=
  if listStartsWith pat seg then
    let after := seg.drop pat.length
    let cap := after.takeWhile (fun c => c ≠ '"')
    if !cap.isEmpty && listStartsWith ['"'] (after.drop cap.length) then
      some (String.mk cap)
    else none
  else none

/-- Greedy scan of `[^>]*`: try the largest offset first, backtracking down
to zero, as the regex engine does. -/
def tryAttrFrom (pat rest : List Char) : Nat → Option String
  | 0 => attrCaptureAt pat rest
  | k + 1 =>
      match attrCaptureAt pat (rest.drop (k + 1)) with
      | some cap => some cap
      | none => tryAttrFrom pat rest k

/-- Model of `re.search(r'<tool_call[^>]*ATTR="([^"]+)"', text).group(1)`:
leftmost `<tool_call` occurrence from which the attribute pattern matches
within the `[^>]*` zone, greedy on the zone offset. -/
def regexToolCallAttr (attr : String) : List Char → Option String
  | [] => none
  | s@(_ :: rest') =>
      if listStartsWith "<tool_call".toList s then
        let rest := s.drop ("<tool_call".length)
        let zone := (rest.takeWhile (fun c => c ≠ '>')).length
        match tryAttrFrom (attr.toList ++ ['=', '"']) rest zone with
        | some cap => some cap
        | none => regexToolCallAttr attr rest'
      else regexToolCallAttr attr rest'

/-- A classified model output: a tool-call request or a final answer.
`tool` and `input` are `payload.get(...)` results, so they are arbitrary
values (`None` when the field is absent). -/
inductive Request where
  | toolCall (tool : JVal) (input : JVal)
  | final (output : String)
  deriving Repr

/-- Body of the strict-form `try` block: `json.loads(block)` then
`payload.get("tool")` / `payload.get("input")`; a non-dict payload raises
`AttributeError` at `.get`, caught by the same handler. -/
def strictPayload (block : String) : Except PyExn Request := do
  let payload ← json_loads block
  match payload with
  | .obj kvs => pure (.toolCall (dget kvs "tool") (dget kvs "input"))
  | v => throw (.otherError
      ("\x27" ++ pyTypeName v ++ "\x27 object has no attribute \x27get\x27"))

/-- The final-answer / verbatim tail of `_parse_response`. -/
def finalForm (text : String) : Request :=
  if strContains text "<final_answer>" && strContains text "</final_answer>" then
    .final (pyStrip (beforeFirst (afterFirst text "<final_answer>") "</final_answer>"))
  else .final text

/-- Source `_parse_response`: classify raw model output. The `Except` layer carries
any exception that would escape the function; every fallible sub-operation is
wrapped exactly where the source wraps it, so the result is always `ok`
(theorem `c3_parse_total`). -/
def _parse_response (text0 : String) : Except PyExn Request :=
  let text := pyStrip text0
  if strContains text "<tool_call>" && strContains text "</tool_call>" then
    let block := pyStrip (beforeFirst (afterFirst text "<tool_call>") "</tool_call>")
    match strictPayload block with
    | .ok r => .ok r
    | .error e => .ok (.final ("[parser error: " ++ e.msg ++ "] RAW: " ++ text))
  else if strContains text "<tool_call" && strContains text "/>" then
    match regexToolCallAttr "name" text.toList with
    | some tool =>
        let raw := match regexToolCallAttr "input_string" text.toList with
          | some r => htmlUnescape r
          | none => ""
        let inp := match json_loads raw with
          | .ok v => v
          | .error _ => JVal.str raw
        .ok (.toolCall (.str tool) inp)
    | none => .ok (finalForm text)
  else .ok (finalForm text)

/-- Source `_PARAM_ALIASES.get(pname, [pname])`: acceptable surface names for a
canonical parameter name, in scan order. -/
def aliasesFor (pname : String) : List String :=
  if pname = "url" then ["url", "href", "target", "page"]
  else if pname = "selector" then ["selector", "css", "locator"]
  else if pname = "text" then ["text", "value", "query"]
  else if pname = "key" then ["key", "keys"]
  else if pname = "file_path" then ["file_path", "path", "dest"]
  else if pname = "javascript_code" then
    ["javascript_code", "expression", "code", "js", "script"]
  else if pname = "state" then ["state"]
  else if pname = "timeout" then ["timeout", "ms"]
  else if pname = "expected_value" then ["expected_value", "expected", "value"]
  else if pname = "input" then ["input"]
  else [pname]

/-- Python `for a in aliases: if a in remaining: found = remaining.pop(a); break` —
the first alias present in the pool, with its value. -/
def findAlias : List String → List (String × JVal) → Option (String × JVal)
  | [], _ => none
  | a :: rest, pool =>
      match dlookup pool a with
      | some v => some (a, v)
      | none => findAlias rest pool

/-- One iteration of the parameter loop of `_extract_kwargs_for` on the
mutable `(kwargs, remaining)` state: pop the first alias present in the pool;
bind its value under the canonical name only when it is not `None`. -/
def bindStep (acc : List (String × JVal) × List (String × JVal)) (p : String) :
    List (String × JVal) × List (String × JVal) :=
  match findAlias (aliasesFor p) acc.2 with
  | some (a, v) =>
      (if v.isNull then acc.1 else dinsert acc.1 p v, dremove acc.2 a)
  | none => acc

/-- The parameter loop of `_extract_kwargs_for`: a fold of `bindStep` over
the declared parameters starting from empty `kwargs` and the full pool. -/
def bindLoop (params : List String) (pool : List (String × JVal)) :
    List (String × JVal) × List (String × JVal) :=
  params.foldl bindStep ([], pool)

/-- Source `_extract_kwargs_for(fn, tool_input)` with the callable abstracted by its
declared parameter names. Returns the ResolvedCall
`(positional_args, keyword_args)`. -/
def _extract_kwargs_for (params : List String) (toolInput : JVal) :
    List JVal × List (String × JVal) :=
  if params.isEmpty then ([], [])
  else if toolInput.isScalar then ([toolInput], [])
  else match toolInput with
  | .obj kvs0 =>
      let kvs := match dlookup kvs0 "input" with
        | some (.obj inner) => dmerge kvs0 inner
        | _ => kvs0
      let kwargs := (bindLoop params kvs).1
      if params.length = 1 && kwargs.isEmpty && kvs.length = 1 then
        match kvs with
        | (_, v) :: _ => ([v], [])
        | [] => ([], kwargs)
      else ([], kwargs)
  | other => ([other], [])

/-- Python `a or b` on values: the first operand when truthy, else the second. -/
def pyOr (a b : JVal) : JVal :=
  if a.truthy then a else b

/-- Source `_normalize_tool_input_for_known_tools(tool_name, tool_input)`:
per-operation input rewriting applied before the invocation ladder. -/
def _normalize_tool_input_for_known_tools (toolName : String) (ti0 : JVal) : JVal :=
  let ti := match ti0 with
    | .obj kvs =>
        (match dlookup kvs "input" with
         | some (.obj inner) => JVal.obj inner
         | _ => JVal.obj kvs)
    | other => other
  if toolName = "browser_snapshot" then .obj []
  else if toolName = "browser_navigate" || toolName = "generator_setup_page"
      || toolName = "planner_setup_page" then
    match ti with
    | .obj kvs =>
        let url := pyOr (dget kvs "url") (pyOr (dget kvs "href")
          (pyOr (dget kvs "target") (dget kvs "page")))
        if url.truthy then .obj [("url", url)] else ti
    | .str s => .obj [("url", .str s)]
    | other => other
  else if toolName = "browser_evaluate" then
    match ti with
    | .obj kvs =>
        let expr := pyOr (dget kvs "javascript_code") (pyOr (dget kvs "expression")
          (pyOr (dget kvs "code") (pyOr (dget kvs "js") (dget kvs "script"))))
        if expr.isNull then .obj kvs else expr
    | other => other
  else ti

/-- Python `try: return fn(args) except TypeError: pass; <next>` — one rung of the
invocation ladder: a `TypeError` falls through to the next attempt, any other
outcome (success or other exception) is the result. -/
def tryCallT (fn : PyFn) (args : CallArgs) (next : Except PyExn JVal) :
    Except PyExn JVal :=
  match fn.call args with
  | .ok v => .ok v
  | .error (.typeError _) => next
  | .error e => .error e

/-- The wrapper unwrapping at the top of `_call_tool`: a dict with an
`"input"` (else `"args"`) entry is replaced by that entry's value. In this
value universe the `isinstance` guard on the entry is always satisfied. -/
def callToolUnwrap (ti : JVal) : JVal :=
  match ti with
  | .obj kvs =>
      (match dlookup kvs "input" with
       | some v => v
       | none =>
          match dlookup kvs "args" with
          | some v => v
          | none => .obj kvs)
  | other => other

/-- Source `_call_tool(fn, tool_input)`: unwrap, then for a dict try `fn(**d)`, then
`fn(d)`; for a non-dict try `fn(x)`; finally `fn()`. Only `TypeError` moves
to the next attempt; the final attempt's outcome is returned as-is. -/
def _call_tool (fn : PyFn) (toolInput : JVal) : Except PyExn JVal :=
  let ti := callToolUnwrap toolInput
  match ti with
  | .obj kvs =>
      tryCallT fn (.kwargs kvs) (tryCallT fn (.pos (.obj kvs)) (fn.call .zero))
  | other =>
      tryCallT fn (.pos other) (fn.call .zero)

/-- One role-tagged transcript entry. -/
inductive Role where
  | user
  | assistant
  | observation
  deriving Repr, DecidableEq

/-- A Turn of the Transcript. -/
structure Turn where
  role : Role
  content : String
  deriving Repr, DecidableEq

/-- A registered tool as the executor sees it: the callable, its description,
and the optional `_smart_call` hook attached by the surrounding application. -/
structure Tool where
  fn : PyFn
  desc : String
  smartCall : Option (String → JVal → JVal)

/-- Executor configuration: the model (taking the rendered prompt and the
invocation index, returning text or raising), the built tool index
(`_tool_index`, name collisions already resolved), the system prompt, and the
step budget. -/
structure ExecCfg where
  llm : String → Nat → Except PyExn String
  toolIndex : List (String × Tool)
  systemPrompt : String
  maxSteps : Nat

/-- Mutable executor state: the Transcript, the number of model invocations
made so far, and `last_raw_output`. -/
structure ExecState where
  transcript : List Turn
  llmCalls : Nat
  lastRawOutput : String

/-- Source `_observe`: append an observation Turn. -/
def ExecState.observeT (st : ExecState) (text : String) : ExecState :=
  { st with transcript := st.transcript ++ [⟨.observation, text⟩] }

/-- Source `_assistant`: append an assistant Turn. -/
def ExecState.assistantT (st : ExecState) (text : String) : ExecState :=
  { st with transcript := st.transcript ++ [⟨.assistant, text⟩] }

/-- The protocol text shown in every prompt (`INSTRUCTIONS`). -/
def INSTRUCTIONS : String :=
  "\nYou can either:\n1) Call a tool by emitting:\n\n<tool_call>\n\x7b\"tool\": \"<tool_name>\", \"input\": \x7b\"key\": \"value\", ...\x7d\x7d\n</tool_call>\n\n…then wait for an <observation> before continuing.\n\n2) Or finish with a final answer:\n\n<final_answer>\n...your final response here...\n</final_answer>\n\nHard rules:\n- Use ONLY tools listed in TOOLS. Do NOT invent tools like \x27extract_links\x27 or \x27json_parser\x27.\n- Emit exactly one <tool_call> per step.\n- When emitting JSON, it MUST be valid JSON (double quotes, escaped inner quotes).\n- Prefer an OBJECT for \"input\" (e.g. \x7b\"url\": \"...\"\x7d), do not pass plain strings.\n- For planning: you MUST invoke \x60planner_setup_page\x60 exactly once at the beginning.\n- For output: you MUST save the final Markdown test plan to disk using \x60edit_createFile\x60\n  at path \"specs/search-plan.md\" (create directories as needed), then end with <final_answer>\n  summarizing where the file was written.\n\nNotes:\n- To explore the page, use: browser_snapshot (no args), browser_navigate, browser_click, browser_type, etc.\n- Do NOT call tools that are not in the provided list.\n"

/-- Source `_render_tool_list`: one line per tool, name and description. -/
def _render_tool_list (tools : List (String × Tool)) : String :=
  String.intercalate "\n" (tools.map fun nt =>
    "- " ++ nt.1 ++ ": " ++ (if nt.2.desc = "" then "No description" else nt.2.desc))

/-- Python `str(role).upper()` for the three well-formed roles. -/
def renderRole : Role → String
  | .user => "USER"
  | .assistant => "ASSISTANT"
  | .observation => "OBSERVATION"

/-- The transcript rendered as role-prefixed lines (entries are always
well-formed in this embedding, so the hardening fallback is unreachable). -/
def renderTranscript (ts : List Turn) : String :=
  String.intercalate "\n" (ts.map fun t => renderRole t.role ++ ": " ++ t.content)

/-- Source `_build_prompt`: the deterministic prompt rendered each step. -/
def _build_prompt (systemPrompt : String) (tools : List (String × Tool))
    (transcript : List Turn) (userInput : String) : String :=
  "SYSTEM:\n" ++ pyStrip systemPrompt
    ++ "\n\nTOOLS (you can call these):\n" ++ _render_tool_list tools
    ++ "\n\nINSTRUCTIONS:\n" ++ pyStrip INSTRUCTIONS
    ++ "\n\nCONVERSATION SO FAR:\n" ++ renderTranscript transcript
    ++ "\n\nUSER:\n" ++ userInput
    ++ "\n\nASSISTANT:\nRemember: either output a single <tool_call>...</tool_call> block OR a <final_answer>...</final_answer> block.\n"

/-- Dict lookup in the tool index. -/
def lookupIndex : List (String × Tool) → String → Option Tool
  | [], _ => none
  | (k, t) :: rest, key => if k = key then some t else lookupIndex rest key

/-- Python `if not tool_name or tool_name not in self._tool_index`: the unknown-tool
test. A falsy name or a hashable name that is no key is unknown (`ok none`);
an unhashable name (`list`/`dict`) makes the `in` test raise `TypeError`,
which the step boundary catches. -/
def toolNameCheck (index : List (String × Tool)) (nm : JVal) :
    Except PyExn (Option (String × Tool)) :=
  if !nm.truthy then .ok none
  else match nm with
    | .str s => .ok ((lookupIndex index s).map fun t => (s, t))
    | .arr _ => .error (.typeError "unhashable type: \x27list\x27")
    | .obj _ => .error (.typeError "unhashable type: \x27dict\x27")
    | _ => .ok none

/-- The known-tool invocation body inside `_one_turn`'s inner `try`:
per-tool normalization, then the `_smart_call` hook when present, then the
invocation ladder `_call_tool`. -/
def toolInvoke (tool : Tool) (nm : String) (inp : JVal) : Except PyExn JVal :=
  let i1 := _normalize_tool_input_for_known_tools nm inp
  let i2 := match tool.smartCall with
    | some sc => sc nm i1
    | none => i1
  _call_tool tool.fn i2

/-- Python `str(observation)` or the `[tool exception]` boundary text. -/
def renderObservation : Except PyExn JVal → String
  | .ok v => pyStr v
  | .error e => "[tool exception] " ++ e.msg

/-- The unknown-tool observation, listing the available operation names. -/
def unknownToolMsg (index : List (String × Tool)) (nm : JVal) : String :=
  "[tool error] Unknown tool \x27" ++ pyStr nm ++ "\x27. Available: "
    ++ String.intercalate ", " (index.map Prod.fst)

/-- Source `_Executor._one_turn`: one reasoning + tool step. Returns the updated
state and `some text` when the loop should stop (final answer, unexpected
output, or a step-boundary fault), `none` to continue. The whole step body is
inside `try: ... except Exception`, which converts a model-call or
parse-level exception into an observation and returns the error string. -/
def _one_turn (cfg : ExecCfg) (st0 : ExecState) (userInput : String) :
    ExecState × Option String :=
  let prompt := _build_prompt cfg.systemPrompt cfg.toolIndex st0.transcript userInput
  let n := st0.llmCalls
  let st := { st0 with llmCalls := n + 1 }
  match cfg.llm prompt n with
  | .error e =>
      let err := "[agent error] " ++ e.msg
      (st.observeT err, some err)
  | .ok text =>
      let st := { st with lastRawOutput := text }
      match _parse_response text with
      | .error e =>
          let err := "[agent error] " ++ e.msg
          (st.observeT err, some err)
      | .ok (.final out) => (st.assistantT out, some out)
      | .ok (.toolCall nmVal inpVal) =>
          match toolNameCheck cfg.toolIndex nmVal with
          | .error e =>
              let err := "[agent error] " ++ e.msg
              (st.observeT err, some err)
          | .ok none => (st.observeT (unknownToolMsg cfg.toolIndex nmVal), none)
          | .ok (some (nm, tool)) =>
              (st.observeT ("<observation tool=\x27" ++ nm ++ "\x27>\n"
                ++ renderObservation (toolInvoke tool nm inpVal)
                ++ "\n</observation>"), none)

/-- The budget-exhausted sentinel. -/
def noFinalAnswerSentinel : String :=
  "[no final answer produced within max steps]"

/-- The `for _ in range(max_steps)` loop of `run`: step until `_one_turn`
returns a value (the `break`) or the budget is exhausted. -/
def runSteps (cfg : ExecCfg) : Nat → ExecState → ExecState × Option String
  | 0, st => (st, none)
  | n + 1, st =>
      match _one_turn cfg st "" with
      | (st', some out) => (st', some out)
      | (st', none) => runSteps cfg n st'

/-- Source `_Executor.run(text)`: append the task as a user Turn, loop, and return
`last_final or "[no final answer produced within max steps]"` — an empty
`last_final` (including an empty final answer) yields the sentinel. -/
def execRun (cfg : ExecCfg) (task : String) : ExecState × String :=
  let st : ExecState := ⟨[⟨.user, task⟩], 0, ""⟩
  let r := runSteps cfg cfg.maxSteps st
  let lastFinal := r.2.getD ""
  (r.1, if lastFinal = "" then noFinalAnswerSentinel else lastFinal)

/-! Spec-side definitions. Each follows the specification's words (or a
claim's amended words) and is compared with the corresponding definition
translated from the source. -/

/-- Spec-side alias binding (§4.2 rule 4, amended for `None` values): for each
declared parameter in order, scan its alias list over the not-yet-consumed
keys of the mapping; the first alias found is removed from the pool and, when
its value is not `None`, bound as a keyword argument under the canonical
name, so no single key is bound to two different parameters. -/
def bindAliasesSpec : List String → List (String × JVal) → List (String × JVal)
  | [], _ => []
  | p :: ps, pool =>
      match findAlias (aliasesFor p) pool with
      | some (a, v) =>
          if v.isNull then bindAliasesSpec ps (dremove pool a)
          else (p, v) :: bindAliasesSpec ps (dremove pool a)
      | none => bindAliasesSpec ps pool

/-- Spec-side companion of `bindAliasesSpec`: the pool of not-yet-consumed
keys left after binding the given parameters. -/
def bindPoolSpec : List String → List (String × JVal) → List (String × JVal)
  | [], pool => pool
  | p :: ps, pool =>
      match findAlias (aliasesFor p) pool with
      | some (a, _) => bindPoolSpec ps (dremove pool a)
      | none => bindPoolSpec ps pool

/-- Spec-side invocation of a ResolvedCall (§4.2 / Claim C1): a single
positional argument, keyword arguments, or — for the empty ResolvedCall —
the zero-argument call (`fn(**{})` is `fn()`). -/
def toCallArgs : List JVal × List (String × JVal) → CallArgs
  | ([], []) => .zero
  | (v :: _, _) => .pos v
  | ([], kw) => .kwargs kw

/-- Spec reading of Claim C1: normalization, then the Argument Binder, then
invocation of the operation with the ResolvedCall produced by bind. The
executor is claimed (falsely) to behave like this. -/
def specBindThenInvoke (params : List String) (fn : PyFn) (nm : String)
    (inp : JVal) : Except PyExn JVal :=
  fn.call (toCallArgs (_extract_kwargs_for params
    (_normalize_tool_input_for_known_tools nm inp)))

/-- The ordered list of call shapes the invocation ladder attempts for a
given input (§4.2 / §9: an explicit ordered list of invocation strategies). -/
def ladderShapes (ti : JVal) : List CallArgs :=
  match callToolUnwrap ti with
  | .obj kvs => [.kwargs kvs, .pos (.obj kvs), .zero]
  | other => [.pos other, .zero]

/-- Spec-side ladder evaluation (Claim C4, amended): attempts are tried in
order; a `TypeError` moves to the next attempt, any other outcome (success or
other exception) is the result; the final attempt's outcome is returned
as-is. -/
def ladderSpec (fn : PyFn) : List CallArgs → Except PyExn JVal
  | [] => fn.call .zero
  | [a] => fn.call a
  | a :: rest =>
      match fn.call a with
      | .ok v => .ok v
      | .error (.typeError _) => ladderSpec fn rest
      | .error e => .error e

/-- Did this call attempt raise a `TypeError`? -/
def isTypeErrorExc : Except PyExn JVal → Bool
  | .error (.typeError _) => true
  | _ => false

/-! Concrete instances used by counterexamples and witnesses. -/

/-- A one-parameter operation `browser_click(selector)` returning a value
that records the argument it received: `fn(selector=v)` and `fn(v)` succeed,
any other keyword set and the zero-argument call raise `TypeError`. -/
def c1fn : PyFn :=
  ⟨fun args =>
    match args with
    | .kwargs [("selector", v)] => .ok (.arr [.str "got", v])
    | .kwargs _ => .error (.typeError "got an unexpected keyword argument")
    | .pos v => .ok (.arr [.str "got", v])
    | .zero => .error (.typeError "missing a required argument: selector")⟩

/-- Tool wrapper: `c1fn` registered as a tool without a `_smart_call` hook. -/
def c1tool : Tool := ⟨c1fn, "click", none⟩

/-- The Claim C1 probe input: the alias key `css` for parameter `selector`. -/
def c1input : JVal := .obj [("css", .str "x")]

/-- Executor configuration for the Claim C1 witness: one registered tool,
a model stub that always emits a strict-form call to it. -/
def c1cfg : ExecCfg :=
  ⟨fun _ _ => .ok "<tool_call>\x7b\"tool\": \"browser_click\", \"input\": \x7b\"css\": \"x\"\x7d\x7d</tool_call>",
   [("browser_click", c1tool)], "sys", 4⟩

/-- A model stub that always raises (`ConnectionError`-like), for Claim C2. -/
def c2cfg : ExecCfg :=
  ⟨fun _ _ => .error (.otherError "boom"), [("browser_click", c1tool)], "sys", 3⟩

/-- An operation for Claim C4 whose keyword attempt raises a non-`TypeError`
while later attempts would succeed. -/
def c4fn : PyFn :=
  ⟨fun args =>
    match args with
    | .kwargs _ => .error (.otherError "boom")
    | .pos _ => .ok (.str "pos-ok")
    | .zero => .ok .null⟩

/-- The Claim C4 probe input: a plain mapping. -/
def c4input : JVal := .obj [("a", .num 1)]

/-- An operation for the Claim C4 witness on which every attempted call
shape raises a `TypeError`. -/
def c4allTE : PyFn := ⟨fun _ => .error (.typeError "nope")⟩

/-- Executor configuration for the Claim C9 witness: a model stub that always
emits a strict-form call to an unregistered operation. -/
def c9cfg : ExecCfg :=
  ⟨fun _ _ => .ok "<tool_call>\x7b\"tool\": \"nope\", \"input\": null\x7d</tool_call>",
   [("browser_click", c1tool)], "sys", 2⟩

/-- Executor configuration for the Claim C10 witness: a model stub that
always emits an empty final-answer block. -/
def c10cfg : ExecCfg :=
  ⟨fun _ _ => .ok "<final_answer></final_answer>", [("browser_click", c1tool)], "sys", 5⟩

/-! Theorems. -/

/-- Claim C6: for every operation declaring zero parameters, `bind`
(`_extract_kwargs_for`) returns an empty ResolvedCall — no positional
arguments and no keyword arguments — regardless of the raw_input shape
(in particular for `null`, `"foo"` and `{"a": 1}`). -/
theorem c6_zero_param_empty_resolved (ti : JVal) :
    _extract_kwargs_for [] ti = ([], []) := rfl

/-- Claim C5 (corrected): for every operation declaring at least one
parameter, a scalar raw_input (string, number, boolean, or null) binds to
exactly one positional argument equal to that value and no keyword
arguments. (The zero-parameter rule fires first, so the claim's "for every
operation" fails; see `c5_counterexample`.) -/
theorem c5_scalar_single_positional (params : List String) (ti : JVal)
    (hp : params ≠ []) (hs : ti.isScalar = true) :
    _extract_kwargs_for params ti = ([ti], []) := by
  match params, hp with
  | p :: ps, _ => simp [_extract_kwargs_for, hs]

/-- Claim C5 is false as stated: for an operation with zero parameters and
the scalar input `"foo"`, `bind` returns the empty ResolvedCall, not a single
positional argument equal to the value. -/
theorem c5_counterexample :
    _extract_kwargs_for [] (.str "foo") = ([], []) ∧
    _extract_kwargs_for [] (.str "foo") ≠ ([JVal.str "foo"], []) :=
  ⟨rfl, by simp [_extract_kwargs_for]⟩

/-- Witness for `c5_scalar_single_positional` at a concrete operation and
scalar. -/
theorem c5_witness :
    (["url"] ≠ ([] : List String)) ∧ (JVal.str "hi").isScalar = true ∧
    _extract_kwargs_for ["url"] (.str "hi") = ([.str "hi"], []) :=
  ⟨by decide, rfl, c5_scalar_single_positional ["url"] (.str "hi") (by decide) rfl⟩

/-- Claim C3: `parse` (`_parse_response`, with every fallible sub-operation
modelled in the exception layer) returns a Request and never raises, for
every input string — including the empty string, garbage, and strings
containing both sentinel forms. -/
theorem c3_parse_total (s : String) : ∃ r, _parse_response s = Except.ok r := by
  simp only [_parse_response]
  repeat' split
  all_goals exact ⟨_, rfl⟩

/-- One rung of the ladder versus the spec-side list evaluation: when at
least one later attempt remains, a `TypeError` falls through to it. -/
theorem ladderSpec_cons (fn : PyFn) (a b : CallArgs) (rest : List CallArgs) :
    ladderSpec fn (a :: b :: rest) = tryCallT fn a (ladderSpec fn (b :: rest)) := by
  unfold tryCallT
  cases h : fn.call a with
  | ok v => simp [ladderSpec, h]
  | error e =>
      cases e with
      | typeError m => simp [ladderSpec, h]
      | otherError m => simp [ladderSpec, h]

/-- Claim C4 (corrected): `_call_tool` evaluates the explicit ordered list of
call shapes with short-circuit on the first attempt that does not raise a
`TypeError` — an intermediate `TypeError` is discarded, any other failure is
surfaced immediately — and when every intermediate attempt raises a
`TypeError`, the final (zero-argument) attempt's outcome is surfaced as-is. -/
theorem c4_ladder_first_non_typeerror (fn : PyFn) (ti : JVal) :
    _call_tool fn ti = ladderSpec fn (ladderShapes ti) ∧
    ((∀ a ∈ (ladderShapes ti).dropLast, isTypeErrorExc (fn.call a) = true) →
      _call_tool fn ti = fn.call .zero) := by
  have h1 : _call_tool fn ti = ladderSpec fn (ladderShapes ti) := by
    simp only [_call_tool, ladderShapes]
    cases hu : callToolUnwrap ti with
    | obj kvs => rw [ladderSpec_cons, ladderSpec_cons]; rfl
    | null => rw [ladderSpec_cons]; rfl
    | bool b => rw [ladderSpec_cons]; rfl
    | num n => rw [ladderSpec_cons]; rfl
    | str s => rw [ladderSpec_cons]; rfl
    | arr xs => rw [ladderSpec_cons]; rfl
  refine ⟨h1, fun hall => ?_⟩
  rw [h1]
  simp only [ladderShapes] at hall ⊢
  cases hu : callToolUnwrap ti with
  | obj kvs =>
      rw [hu] at hall
      simp only [List.dropLast, List.mem_cons, List.not_mem_nil, or_false] at hall
      have hk := hall (.kwargs kvs) (Or.inl rfl)
      have hp := hall (.pos (.obj kvs)) (Or.inr rfl)
      rw [ladderSpec_cons, ladderSpec_cons]
      unfold tryCallT
      cases hck : fn.call (.kwargs kvs) with
      | ok v => rw [hck] at hk; cases hk
      | error e =>
          cases e with
          | otherError m => rw [hck] at hk; cases hk
          | typeError m =>
              cases hcp : fn.call (.pos (.obj kvs)) with
              | ok v => rw [hcp] at hp; cases hp
              | error e2 =>
                  cases e2 with
                  | otherError m2 => rw [hcp] at hp; cases hp
                  | typeError m2 => rfl
  | null =>
      rw [hu] at hall
      simp only [List.dropLast, List.mem_cons, List.not_mem_nil, or_false] at hall
      have hp := hall (.pos .null) rfl
      rw [ladderSpec_cons]
      unfold tryCallT
      cases hcp : fn.call (.pos .null) with
      | ok v => rw [hcp] at hp; cases hp
      | error e =>
          cases e with
          | otherError m => rw [hcp] at hp; cases hp
          | typeError m => rfl
  | bool b =>
      rw [hu] at hall
      simp only [List.dropLast, List.mem_cons, List.not_mem_nil, or_false] at hall
      have hp := hall (.pos (.bool b)) rfl
      rw [ladderSpec_cons]
      unfold tryCallT
      cases hcp : fn.call (.pos (.bool b)) with
      | ok v => rw [hcp] at hp; cases hp
      | error e =>
          cases e with
          | otherError m => rw [hcp] at hp; cases hp
          | typeError m => rfl
  | num n =>
      rw [hu] at hall
      simp only [List.dropLast, List.mem_cons, List.not_mem_nil, or_false] at hall
      have hp := hall (.pos (.num n)) rfl
      rw [ladderSpec_cons]
      unfold tryCallT
      cases hcp : fn.call (.pos (.num n)) with
      | ok v => rw [hcp] at hp; cases hp
      | error e =>
          cases e with
          | otherError m => rw [hcp] at hp; cases hp
          | typeError m => rfl
  | str s =>
      rw [hu] at hall
      simp only [List.dropLast, List.mem_cons, List.not_mem_nil, or_false] at hall
      have hp := hall (.pos (.str s)) rfl
      rw [ladderSpec_cons]
      unfold tryCallT
      cases hcp : fn.call (.pos (.str s)) with
      | ok v => rw [hcp] at hp; cases hp
      | error e =>
          cases e with
          | otherError m => rw [hcp] at hp; cases hp
          | typeError m => rfl
  | arr xs =>
      rw [hu] at hall
      simp only [List.dropLast, List.mem_cons, List.not_mem_nil, or_false] at hall
      have hp := hall (.pos (.arr xs)) rfl
      rw [ladderSpec_cons]
      unfold tryCallT
      cases hcp : fn.call (.pos (.arr xs)) with
      | ok v => rw [hcp] at hp; cases hp
      | error e =>
          cases e with
          | otherError m => rw [hcp] at hp; cases hp
          | typeError m => rfl

/-- Claim C4 is false as stated: for `c4fn` on the mapping `{"a": 1}`, the
keyword attempt's non-`TypeError` failure is surfaced as the operation's
error result even though the whole-mapping positional attempt and the
zero-argument attempt would succeed — so an error is surfaced without every
attempt failing, and it is not the final attempt's error. -/
theorem c4_counterexample :
    _call_tool c4fn c4input = .error (.otherError "boom") ∧
    c4fn.call (.pos c4input) = .ok (.str "pos-ok") ∧
    c4fn.call .zero = .ok .null :=
  ⟨rfl, rfl, rfl⟩

/-- Witness for `c4_ladder_first_non_typeerror` on an operation every one of
whose attempted call shapes raises a `TypeError`. -/
theorem c4_witness :
    (∀ a ∈ (ladderShapes c4input).dropLast, isTypeErrorExc (c4allTE.call a) = true) ∧
    _call_tool c4allTE c4input = c4allTE.call .zero :=
  ⟨fun _ _ => rfl,
   (c4_ladder_first_non_typeerror c4allTE c4input).2 (fun _ _ => rfl)⟩

/-- Appending an entry under a fresh, different key keeps a lookup absent. -/
theorem dlookup_append_none : ∀ (d : List (String × JVal)) (k p : String) (v : JVal),
    dlookup d k = none → k ≠ p → dlookup (d ++ [(p, v)]) k = none
  | [], k, p, v, _, hne => by
      simp only [List.nil_append, dlookup]
      exact if_neg fun hh => hne hh.symm
  | (k', w) :: rest, k, p, v, h, hne => by
      simp only [dlookup, List.cons_append] at h ⊢
      by_cases hk : k' = k
      · rw [if_pos hk] at h; cases h
      · rw [if_neg hk] at h ⊢
        exact dlookup_append_none rest k p v h hne

/-- Python `d[k] = v` on a dict not containing `k` appends the entry at the end. -/
theorem dinsert_of_not_mem : ∀ (d : List (String × JVal)) (k : String) (v : JVal),
    dlookup d k = none → dinsert d k v = d ++ [(k, v)]
  | [], _, _, _ => rfl
  | (k', w) :: rest, k, v, h => by
      simp only [dlookup] at h
      by_cases hk : k' = k
      · rw [if_pos hk] at h; cases h
      · rw [if_neg hk] at h
        simp only [dinsert, List.cons_append, if_neg hk]
        rw [dinsert_of_not_mem rest k v h]

/-- The imperative parameter loop (a fold of `bindStep` threading mutable
`kwargs`/`remaining`) equals the declarative spec-side recursion: starting
from any accumulated `kwargs` whose keys are disjoint from the distinct
parameters still to bind, the fold appends exactly the spec-side bindings
and leaves the spec-side pool. -/
theorem foldl_bindStep_spec : ∀ (params : List String) (kw0 pool : List (String × JVal)),
    params.Nodup → (∀ p ∈ params, dlookup kw0 p = none) →
    params.foldl bindStep (kw0, pool)
      = (kw0 ++ bindAliasesSpec params pool, bindPoolSpec params pool)
  | [], kw0, pool, _, _ => by simp [bindAliasesSpec, bindPoolSpec]
  | p :: ps, kw0, pool, hnd, h0 => by
      have hp : p ∉ ps := (List.nodup_cons.mp hnd).1
      have hnd' : ps.Nodup := (List.nodup_cons.mp hnd).2
      simp only [List.foldl_cons, bindAliasesSpec, bindPoolSpec]
      cases hf : findAlias (aliasesFor p) pool with
      | none =>
          simp only [bindStep, hf]
          exact foldl_bindStep_spec ps kw0 pool hnd'
            (fun q hq => h0 q (List.mem_cons_of_mem p hq))
      | some av =>
          obtain ⟨a, v⟩ := av
          simp only [bindStep, hf]
          cases hv : v.isNull with
          | true =>
              simp only [if_pos rfl]
              exact foldl_bindStep_spec ps kw0 (dremove pool a) hnd'
                (fun q hq => h0 q (List.mem_cons_of_mem p hq))
          | false =>
              simp only [Bool.false_eq_true, if_neg, ite_false]
              rw [dinsert_of_not_mem kw0 p v (h0 p (List.mem_cons_self p ps))]
              rw [foldl_bindStep_spec ps (kw0 ++ [(p, v)]) (dremove pool a) hnd'
                (fun q hq => dlookup_append_none kw0 q p v
                  (h0 q (List.mem_cons_of_mem p hq))
                  (fun he => hp (he ▸ hq)))]
              simp [List.append_assoc]

/-- Claim C7 (corrected): for a mapping raw_input (with no nested `"input"`
mapping to merge), the keyword component of `bind`'s ResolvedCall is exactly
the spec-side alias resolution `bindAliasesSpec` — each declared parameter
scans its alias list in order over the not-yet-consumed keys, the first alias
found is removed from the pool and, when its value is not null, bound under
the canonical name, so no single key is bound to two different parameters —
and in particular an operation with parameter `url` given `{"href":
"http://x"}` binds the keyword argument `url = "http://x"`. -/
theorem c7_alias_binding (params : List String) (kvs : List (String × JVal))
    (hnd : params.Nodup)
    (hni : ∀ inner, dlookup kvs "input" ≠ some (.obj inner)) :
    (_extract_kwargs_for params (.obj kvs)).2 = bindAliasesSpec params kvs ∧
    _extract_kwargs_for ["url"] (.obj [("href", .str "http://x")])
      = ([], [("url", .str "http://x")]) := by
  refine ⟨?_, rfl⟩
  have hbl : (bindLoop params kvs).1 = bindAliasesSpec params kvs := by
    rw [bindLoop, foldl_bindStep_spec params [] kvs hnd (fun _ _ => rfl)]
    simp
  cases params with
  | nil => simp [_extract_kwargs_for, bindAliasesSpec]
  | cons p ps =>
      simp only [_extract_kwargs_for, List.isEmpty_cons, JVal.isScalar]
      rw [hbl]
      by_cases hc : (decide ((p :: ps).length = 1)
          && (bindAliasesSpec (p :: ps) kvs).isEmpty
          && decide (kvs.length = 1)) = true
      · have hke : bindAliasesSpec (p :: ps) kvs = [] := by
          have hc' := hc
          simp only [Bool.and_eq_true] at hc'
          exact List.isEmpty_iff.mp hc'.1.2
        rw [hc]
        cases kvs <;> simp [hke]
      · simp only [Bool.not_eq_true] at hc
        rw [hc]
        simp

/-- Claim C7 is false as stated: with parameter `url` and input
`{"href": null}`, the first alias found (`href`) is consumed but its `None`
value is not bound as a keyword argument — the binder instead falls back to
passing the value positionally. -/
theorem c7_counterexample :
    _extract_kwargs_for ["url"] (.obj [("href", .null)]) = ([JVal.null], []) ∧
    (_extract_kwargs_for ["url"] (.obj [("href", .null)])).2 ≠ [("url", JVal.null)] :=
  ⟨rfl, by
    rw [show (_extract_kwargs_for ["url"] (.obj [("href", JVal.null)])).2
      = [] from rfl]
    simp⟩

/-- Witness for `c7_alias_binding` at a concrete operation and mapping. -/
theorem c7_witness :
    (["url", "text"] : List String).Nodup ∧
    (_extract_kwargs_for ["url", "text"]
        (.obj [("href", .str "h"), ("query", .str "q")])).2
      = bindAliasesSpec ["url", "text"] [("href", .str "h"), ("query", .str "q")] ∧
    bindAliasesSpec ["url", "text"] [("href", .str "h"), ("query", .str "q")]
      = [("url", .str "h"), ("text", .str "q")] :=
  ⟨by decide,
   (c7_alias_binding ["url", "text"] [("href", .str "h"), ("query", .str "q")]
     (by decide)
     (fun inner h => by
       rw [show dlookup [("href", JVal.str "h"), ("query", JVal.str "q")] "input"
         = none from rfl] at h
       cases h)).1,
   rfl⟩

/-- Claim C8 (corrected): a well-formed strict block whose payload fails to
decode yields a FinalAnswer — never a ToolCall, never a fall-through to the
permissive form — whose text is exactly the decode error followed by the
whitespace-stripped original raw output (the parser strips the output before
matching, so the stripped text, not the complete original, is preserved). -/
theorem c8_strict_decode_failure (text : String) (e : PyExn)
    (h1 : strContains (pyStrip text) "<tool_call>" = true)
    (h2 : strContains (pyStrip text) "</tool_call>" = true)
    (hd : json_loads (pyStrip (beforeFirst (afterFirst (pyStrip text) "<tool_call>")
      "</tool_call>")) = .error e) :
    _parse_response text =
      .ok (.final ("[parser error: " ++ e.msg ++ "] RAW: " ++ pyStrip text)) := by
  have hs : strictPayload (pyStrip (beforeFirst (afterFirst (pyStrip text)
      "<tool_call>") "</tool_call>")) = .error e := by
    unfold strictPayload
    rw [hd]
    rfl
  simp [_parse_response, h1, h2, hs]

/-- Claim C8 is false as stated on an output with trailing whitespace: the
FinalAnswer text carries the stripped output and does not contain the
complete original raw output. -/
theorem c8_counterexample :
    _parse_response "<tool_call>x</tool_call> " =
      .ok (.final "[parser error: Expecting value] RAW: <tool_call>x</tool_call>") ∧
    strContains "[parser error: Expecting value] RAW: <tool_call>x</tool_call>"
      "<tool_call>x</tool_call> " = false :=
  ⟨rfl, rfl⟩

/-- Witness for `c8_strict_decode_failure` at a concrete malformed block. -/
theorem c8_witness :
    strContains (pyStrip "<tool_call>bad</tool_call>") "<tool_call>" = true ∧
    strContains (pyStrip "<tool_call>bad</tool_call>") "</tool_call>" = true ∧
    json_loads (pyStrip (beforeFirst (afterFirst (pyStrip "<tool_call>bad</tool_call>")
      "<tool_call>") "</tool_call>")) = .error (.otherError "Expecting value") ∧
    _parse_response "<tool_call>bad</tool_call>" =
      .ok (.final ("[parser error: " ++ (PyExn.otherError "Expecting value").msg
        ++ "] RAW: " ++ pyStrip "<tool_call>bad</tool_call>")) :=
  ⟨rfl, rfl, rfl,
   c8_strict_decode_failure "<tool_call>bad</tool_call>"
     (.otherError "Expecting value") rfl rfl rfl⟩

/-- An agent-error result string is never empty (it starts with the fixed
prefix), so `run` does not replace it with the budget sentinel. -/
theorem agent_error_ne_empty (s : String) : ("[agent error] " ++ s) ≠ "" := by
  intro h
  have hl := congrArg String.length h
  rw [String.length_append] at hl
  rw [show ("[agent error] ".length) = 14 from rfl,
    show ("".length) = 0 from rfl] at hl
  omega

/-- Claim C2 (corrected): when the model invocation raises at a step, the
error is appended to the Transcript as an observation Turn — but the loop
then stops: `_one_turn` returns the error string, `run` treats it as the
final output, and the run's result is the error string after exactly one
model invocation (not only a FinalAnswer or the step budget). -/
theorem c2_loop_fault_terminates (cfg : ExecCfg) (task : String) (e : PyExn)
    (hllm : ∀ p, cfg.llm p 0 = .error e) (hms : 0 < cfg.maxSteps) :
    (execRun cfg task).2 = "[agent error] " ++ e.msg ∧
    (execRun cfg task).1.llmCalls = 1 ∧
    (execRun cfg task).1.transcript =
      [⟨.user, task⟩, ⟨.observation, "[agent error] " ++ e.msg⟩] := by
  obtain ⟨m, hm⟩ : ∃ m, cfg.maxSteps = m + 1 := by
    cases hq : cfg.maxSteps with
    | zero => rw [hq] at hms; cases hms
    | succ m => exact ⟨m, rfl⟩
  have h1 : _one_turn cfg ⟨[⟨.user, task⟩], 0, ""⟩ ""
      = (⟨[⟨.user, task⟩, ⟨.observation, "[agent error] " ++ e.msg⟩], 1, ""⟩,
         some ("[agent error] " ++ e.msg)) := by
    simp only [_one_turn]
    rw [hllm]
    rfl
  unfold execRun
  rw [hm]
  simp only [runSteps, h1, Option.getD_some]
  rw [if_neg (agent_error_ne_empty e.msg)]
  exact ⟨rfl, trivial, trivial⟩

/-- Claim C2 is false as stated: with a model stub that always raises and a
budget of three steps, the run terminates after one model invocation and
returns the error string — not a final answer and not the budget sentinel. -/
theorem c2_counterexample :
    (execRun c2cfg "t").2 = "[agent error] boom" ∧
    "[agent error] boom" ≠ noFinalAnswerSentinel ∧
    (execRun c2cfg "t").1.llmCalls = 1 ∧ c2cfg.maxSteps = 3 :=
  ⟨rfl, by decide, rfl, rfl⟩

/-- Witness for `c2_loop_fault_terminates` on the concrete failing stub. -/
theorem c2_witness :
    (∀ p, c2cfg.llm p 0 = .error (.otherError "boom")) ∧ 0 < c2cfg.maxSteps ∧
    (execRun c2cfg "w").2 = "[agent error] " ++ (PyExn.otherError "boom").msg ∧
    (execRun c2cfg "w").1.transcript =
      [⟨.user, "w"⟩, ⟨.observation, "[agent error] " ++ (PyExn.otherError "boom").msg⟩] :=
  ⟨fun _ => rfl, by decide,
   (c2_loop_fault_terminates c2cfg "w" (.otherError "boom") (fun _ => rfl) (by decide)).1,
   (c2_loop_fault_terminates c2cfg "w" (.otherError "boom") (fun _ => rfl) (by decide)).2.2⟩

/-- Stepping with a model stub that always emits the same unknown-operation
tool call: every step appends one unknown-tool observation, consumes one
model invocation, and never produces a loop-breaking value. -/
theorem runSteps_unknown_aux (cfg : ExecCfg) (t : String) (nm inp : JVal)
    (hllm : ∀ p n, cfg.llm p n = .ok t)
    (hp : _parse_response t = .ok (.toolCall nm inp))
    (hlk : toolNameCheck cfg.toolIndex nm = .ok none) :
    ∀ (k : Nat) (st : ExecState),
      (runSteps cfg k st).2 = none ∧
      (runSteps cfg k st).1.transcript = st.transcript
        ++ List.replicate k ⟨.observation, unknownToolMsg cfg.toolIndex nm⟩ ∧
      (runSteps cfg k st).1.llmCalls = st.llmCalls + k := by
  intro k
  induction k with
  | zero => intro st; simp [runSteps]
  | succ k ih =>
      intro st
      have h1 : _one_turn cfg st ""
          = (⟨st.transcript ++ [⟨.observation, unknownToolMsg cfg.toolIndex nm⟩],
              st.llmCalls + 1, t⟩, none) := by
        simp only [_one_turn, hllm, hp, hlk]
        rfl
      obtain ⟨ih1, ih2, ih3⟩ := ih
        ⟨st.transcript ++ [⟨.observation, unknownToolMsg cfg.toolIndex nm⟩],
         st.llmCalls + 1, t⟩
      simp only [runSteps, h1]
      refine ⟨ih1, ?_, ?_⟩
      · rw [ih2]
        simp [List.replicate_succ, List.append_assoc]
      · rw [ih3]
        simp
        omega

/-- Claim C9: with a model stub that on every turn returns a ToolCall naming
an operation not in the registry, the loop performs exactly `max_steps` model
invocations, appends the observation listing the available operation names
each turn, and returns the budget-exhausted sentinel. -/
theorem c9_unknown_tool_budget (cfg : ExecCfg) (task t : String) (nm inp : JVal)
    (hllm : ∀ p n, cfg.llm p n = .ok t)
    (hp : _parse_response t = .ok (.toolCall nm inp))
    (hlk : toolNameCheck cfg.toolIndex nm = .ok none) :
    (execRun cfg task).2 = noFinalAnswerSentinel ∧
    (execRun cfg task).1.llmCalls = cfg.maxSteps ∧
    (execRun cfg task).1.transcript = ⟨.user, task⟩ :: List.replicate cfg.maxSteps
      ⟨.observation, unknownToolMsg cfg.toolIndex nm⟩ := by
  obtain ⟨H1, H2, H3⟩ := runSteps_unknown_aux cfg t nm inp hllm hp hlk
    cfg.maxSteps ⟨[⟨.user, task⟩], 0, ""⟩
  simp only [execRun]
  rw [H1, H2, H3]
  simp

/-- Witness for `c9_unknown_tool_budget` on a concrete stub and registry. -/
theorem c9_witness :
    (∀ p n, c9cfg.llm p n
      = .ok "<tool_call>\x7b\"tool\": \"nope\", \"input\": null\x7d</tool_call>") ∧
    _parse_response "<tool_call>\x7b\"tool\": \"nope\", \"input\": null\x7d</tool_call>"
      = .ok (.toolCall (.str "nope") .null) ∧
    toolNameCheck c9cfg.toolIndex (.str "nope") = .ok none ∧
    (execRun c9cfg "task").2 = noFinalAnswerSentinel ∧
    (execRun c9cfg "task").1.llmCalls = 2 :=
  ⟨fun _ _ => rfl, rfl, rfl,
   (c9_unknown_tool_budget c9cfg "task"
     "<tool_call>\x7b\"tool\": \"nope\", \"input\": null\x7d</tool_call>"
     (.str "nope") .null (fun _ _ => rfl) rfl rfl).1,
   ((c9_unknown_tool_budget c9cfg "task"
     "<tool_call>\x7b\"tool\": \"nope\", \"input\": null\x7d</tool_call>"
     (.str "nope") .null (fun _ _ => rfl) rfl rfl).2.1).trans rfl⟩

/-- Claim C10: when a turn parses to a FinalAnswer with empty text, the loop
stops at that turn (one model invocation) and appends an empty assistant
Turn, but `run` replaces the empty answer with the budget-exhausted sentinel
— an empty final answer is indistinguishable at the task boundary from
budget exhaustion. -/
theorem c10_empty_final_sentinel (cfg : ExecCfg) (task t : String)
    (hllm : ∀ p n, cfg.llm p n = .ok t)
    (hp : _parse_response t = .ok (.final ""))
    (hms : 0 < cfg.maxSteps) :
    (execRun cfg task).2 = noFinalAnswerSentinel ∧
    (execRun cfg task).1.llmCalls = 1 ∧
    (execRun cfg task).1.transcript = [⟨.user, task⟩, ⟨.assistant, ""⟩] := by
  obtain ⟨m, hm⟩ : ∃ m, cfg.maxSteps = m + 1 := by
    cases hq : cfg.maxSteps with
    | zero => rw [hq] at hms; cases hms
    | succ m => exact ⟨m, rfl⟩
  have h1 : _one_turn cfg ⟨[⟨.user, task⟩], 0, ""⟩ ""
      = (⟨[⟨.user, task⟩, ⟨.assistant, ""⟩], 1, t⟩, some "") := by
    simp only [_one_turn, hllm, hp]
    rfl
  simp only [execRun]
  rw [hm]
  simp only [runSteps, h1, Option.getD_some]
  simp

/-- Witness for `c10_empty_final_sentinel` on a stub emitting an empty
final-answer block, with a budget of five steps. -/
theorem c10_witness :
    (∀ p n, c10cfg.llm p n = .ok "<final_answer></final_answer>") ∧
    _parse_response "<final_answer></final_answer>" = .ok (.final "") ∧
    0 < c10cfg.maxSteps ∧
    (execRun c10cfg "task").2 = noFinalAnswerSentinel ∧
    (execRun c10cfg "task").1.llmCalls = 1 ∧
    (execRun c10cfg "task").1.transcript = [⟨.user, "task"⟩, ⟨.assistant, ""⟩] :=
  ⟨fun _ _ => rfl, rfl, by decide,
   (c10_empty_final_sentinel c10cfg "task" "<final_answer></final_answer>"
     (fun _ _ => rfl) rfl (by decide)).1,
   (c10_empty_final_sentinel c10cfg "task" "<final_answer></final_answer>"
     (fun _ _ => rfl) rfl (by decide)).2.1,
   (c10_empty_final_sentinel c10cfg "task" "<final_answer></final_answer>"
     (fun _ _ => rfl) rfl (by decide)).2.2⟩

/-- Claim C1 (corrected): for a parsed ToolCall naming a registered
operation, the Turn Sequencer applies the per-operation normalization rules
and then the invocation ladder directly on the normalized payload — the
observation is determined by `_call_tool fn (normalize name input)`. The
Argument Binder (`_extract_kwargs_for`) is not applied on this path (see
`c1_counterexample`). -/
theorem c1_normalize_then_ladder (cfg : ExecCfg) (st : ExecState) (t : String)
    (nmVal inpVal : JVal) (nm : String) (tool : Tool)
    (hllm : ∀ p n, cfg.llm p n = .ok t)
    (hp : _parse_response t = .ok (.toolCall nmVal inpVal))
    (hlk : toolNameCheck cfg.toolIndex nmVal = .ok (some (nm, tool)))
    (hsc : tool.smartCall = none) :
    _one_turn cfg st "" =
      (⟨st.transcript ++ [⟨.observation,
           "<observation tool=\x27" ++ nm ++ "\x27>\n"
           ++ renderObservation (_call_tool tool.fn
                (_normalize_tool_input_for_known_tools nm inpVal))
           ++ "\n</observation>"⟩],
        st.llmCalls + 1, t⟩, none) := by
  simp only [_one_turn, hllm, hp, hlk, toolInvoke, hsc]
  rfl

/-- Claim C1 is false as stated: for the registered one-parameter operation
`browser_click(selector)` and the aliased input `{"css": "x"}`, the executor
path (ladder on the raw normalized payload) passes the whole mapping
positionally, while bind-then-invoke would bind the keyword `selector`;
the two produce different results. -/
theorem c1_counterexample :
    toolInvoke c1tool "browser_click" c1input
      = .ok (.arr [.str "got", .obj [("css", .str "x")]]) ∧
    specBindThenInvoke ["selector"] c1fn "browser_click" c1input
      = .ok (.arr [.str "got", .str "x"]) ∧
    toolInvoke c1tool "browser_click" c1input
      ≠ specBindThenInvoke ["selector"] c1fn "browser_click" c1input := by
  refine ⟨rfl, rfl, ?_⟩
  rw [show toolInvoke c1tool "browser_click" c1input
    = .ok (.arr [.str "got", .obj [("css", .str "x")]]) from rfl]
  rw [show specBindThenInvoke ["selector"] c1fn "browser_click" c1input
    = .ok (.arr [.str "got", .str "x"]) from rfl]
  simp

/-- Witness for `c1_normalize_then_ladder` on the concrete registry and
strict-form stub. -/
theorem c1_witness :
    (∀ p n, c1cfg.llm p n
      = .ok "<tool_call>\x7b\"tool\": \"browser_click\", \"input\": \x7b\"css\": \"x\"\x7d\x7d</tool_call>") ∧
    _parse_response "<tool_call>\x7b\"tool\": \"browser_click\", \"input\": \x7b\"css\": \"x\"\x7d\x7d</tool_call>"
      = .ok (.toolCall (.str "browser_click") (.obj [("css", .str "x")])) ∧
    toolNameCheck c1cfg.toolIndex (.str "browser_click")
      = .ok (some ("browser_click", c1tool)) ∧
    c1tool.smartCall = none ∧
    _one_turn c1cfg ⟨[⟨.user, "go"⟩], 0, ""⟩ "" =
      (⟨[Turn.mk .user "go"] ++ [⟨.observation,
           "<observation tool=\x27browser_click\x27>\n"
           ++ renderObservation (_call_tool c1tool.fn
                (_normalize_tool_input_for_known_tools "browser_click"
                  (.obj [("css", .str "x")])))
           ++ "\n</observation>"⟩],
        0 + 1,
        "<tool_call>\x7b\"tool\": \"browser_click\", \"input\": \x7b\"css\": \"x\"\x7d\x7d</tool_call>"⟩,
       none) :=
  ⟨fun _ _ => rfl, rfl, rfl, rfl,
   c1_normalize_then_ladder c1cfg ⟨[⟨.user, "go"⟩], 0, ""⟩
     "<tool_call>\x7b\"tool\": \"browser_click\", \"input\": \x7b\"css\": \"x\"\x7d\x7d</tool_call>"
     (.str "browser_click") (.obj [("css", .str "x")]) "browser_click" c1tool
     (fun _ _ => rfl) rfl rfl rfl⟩

end PWAgents
